import Mathlib

/-!
Shallow embedding of gui/settings_dialogs.py.

The module contains two dialogs with verifiable logic:
  - DebugViewDialog: an append-only log buffer with a checkable word-filter
    list and a quick-filter line edit driving a read-only text surface
    (apply_filter, add_filter_word, clear_log_window, append_text_slot);
  - ClientSettingsDialog: a JSON-file settings mapping plus masked-secret
    environment-variable handling (load_settings, apply_settings,
    save_environment_variable, set_key_input_value).

Python strings are embedded as Lean String; the operators used by the code
(substring test, startswith, lower) are embedded on the character-list
level below.  Process-wide environment state is embedded as a function
String to Option String, and the settings file as an optional parsed JSON
object (a string-to-string association list): json.dumps / json.load are
Python standard library, external to the repository, and round-trip a
string-keyed, string-valued object.
-/

namespace SettingsDialogs

/-- Embedding of Python str.startswith on character lists:
listStartsWith hay pre is true iff pre is an initial segment of hay. -/
def listStartsWith : List Char → List Char → Bool
  | _, [] => true
  | [], _ :: _ => false
  | a :: as, b :: bs => (a == b) && listStartsWith as bs

/-- Embedding of the Python membership test on character lists:
listHasSub hay needle is true iff needle occurs contiguously in hay. -/
def listHasSub : List Char → List Char → Bool
  | [], needle => needle.isEmpty
  | a :: as, needle => listStartsWith (a :: as) needle || listHasSub as needle

/-- Embedding of Python str.lower: lower-cases each character.  (Defined
on the character list so that it evaluates by kernel reduction.) -/
def pyLower (s : String) : String :=
  String.mk (s.toList.map Char.toLower)

/-- Python needle in hay for strings. -/
def pyIn (needle hay : String) : Bool :=
  listHasSub hay.toList needle.toList

/-- Python value.startswith(pre) for strings. -/
def pyStartsWith (value pre : String) : Bool :=
  listStartsWith value.toList pre.toList

/-- One row of the filterList QListWidget: its text and its check state
(Qt.CheckState.Checked embedded as checked = true). -/
structure FilterItem where
  text : String
  checked : Bool
deriving DecidableEq, Repr

/-- State of DebugViewDialog: the stored log messages, the rendered
read-only surface (textEdit, as the list of appended lines), the filter
list and the quick-filter line edit. -/
structure DebugViewDialog where
  logMessages : List String
  textEdit : List String
  filterList : List FilterItem
  filterLineEdit : String
deriving DecidableEq, Repr

/-- DebugViewDialog.apply_filter (settings_dialogs.py lines 113-135):
clears textEdit, then, if any filter item is checked, re-appends the
messages whose lower-cased text contains at least one checked item's
lower-cased text; otherwise re-appends the messages whose lower-cased text
contains the lower-cased quick-filter text.  Clearing then appending the
matches is embedded as assigning the filtered list. -/
def apply_filter (d : DebugViewDialog) : DebugViewDialog :=
  let is_any_filter_selected := d.filterList.any (fun it => it.checked)
  if is_any_filter_selected then
    let selected_filters :=
      (d.filterList.filter (fun it => it.checked)).map (fun it => pyLower it.text)
    { d with textEdit :=
        d.logMessages.filter (fun message =>
          selected_filters.any (fun filter_word => pyIn filter_word (pyLower message))) }
  else
    let filter_text := pyLower d.filterLineEdit
    { d with textEdit :=
        d.logMessages.filter (fun message => pyIn filter_text (pyLower message)) }

/-- The rendered surface produced by re-applying the current filter:
the spec's render(). -/
def render (d : DebugViewDialog) : List String :=
  (apply_filter d).textEdit

/-- DebugViewDialog.append_text_slot (lines 90-96): appends the message to
the surface and the stored messages, then re-applies the filter. -/
def append_text_slot (d : DebugViewDialog) (message : String) : DebugViewDialog :=
  apply_filter
    { d with textEdit := d.textEdit ++ [message],
             logMessages := d.logMessages ++ [message] }

/-- DebugViewDialog.clear_log_window (lines 109-111): clears the surface
and the stored messages. -/
def clear_log_window (d : DebugViewDialog) : DebugViewDialog :=
  { d with textEdit := [], logMessages := [] }

/-- DebugViewDialog.add_filter_word (lines 137-155): reads the quick-filter
text; returns unchanged when it is falsy (the empty string); otherwise adds
an unchecked item with that text to the filter list and re-applies the
filter. -/
def add_filter_word (d : DebugViewDialog) : DebugViewDialog :=
  let filter_word := d.filterLineEdit
  if filter_word = "" then d
  else apply_filter { d with filterList := d.filterList ++ [⟨filter_word, false⟩] }

/-- Modelled from the spec: the AIClientType enum lives in the repository's
SDK package (azure.ai.assistant.management.ai_client_factory), which is not
under src/; the spec describes it as a closed tagged-variant (enum) of
client-type tags. -/
inductive AIClientType where
  | AZURE_OPEN_AI
  | OPEN_AI
deriving DecidableEq, Repr

/-- Modelled from the spec: Python equality between a str and a member of a
non-str Enum such as AIClientType.  An Enum member compares equal only to
itself, so comparing it with any string yields False.  apply_settings
(lines 379 and 382) performs exactly this comparison with the combo box's
currentText() string. -/
def pyStrEqEnum (_ : String) (_ : AIClientType) : Bool :=
  false

/-- Python dict assignment d[k] = v on a string-to-string dict embedded as
an insertion-ordered association list: replaces the value in place when the
key exists, else appends. -/
def dictSet (m : List (String × String)) (k v : String) : List (String × String) :=
  if m.any (fun kv => kv.1 == k) then
    m.map (fun kv => if kv.1 == k then (k, v) else kv)
  else m ++ [(k, v)]

/-- Python dict.update: sets every key-value pair of upd in base, in
order. -/
def dictUpdate (base upd : List (String × String)) : List (String × String) :=
  upd.foldl (fun m kv => dictSet m kv.1 kv.2) base

/-- Python dict.get(k, default). -/
def dictGet (m : List (String × String)) (k dflt : String) : String :=
  match m.find? (fun kv => kv.1 == k) with
  | some kv => kv.2
  | none => dflt

/-- State of ClientSettingsDialog together with the external state it reads
and writes: the combo and line-edit contents, the in-memory settings dict,
the settings file (fileContent, none when the file does not exist, some of
the parsed JSON object otherwise) and the process environment (env). -/
structure ClientSettingsDialog where
  clientSelection : String
  openai_api_key_input : String
  azure_api_key_input : String
  azure_endpoint_input : String
  azure_api_version_input : String
  model_selection : String
  settings : List (String × String)
  fileContent : Option (List (String × String))
  env : String → Option String

/-- ClientSettingsDialog.load_settings (lines 295-300): if the settings
file exists, parse it and update the settings dict with its contents;
a missing file is not an error and leaves the dict as it is. -/
def load_settings (d : ClientSettingsDialog) : ClientSettingsDialog :=
  match d.fileContent with
  | none => d
  | some loaded => { d with settings := dictUpdate d.settings loaded }

/-- The obscured display form built in set_key_input_value (line 373):
all but the last 4 characters replaced by asterisks.  Python repeats the
asterisk len(key) - 4 times (zero when negative, as Nat subtraction does)
and key[-4:] keeps the last four characters (the whole string when it is
shorter), embedded as dropping all but four. -/
def obscure (key : String) : String :=
  String.mk (List.replicate (key.length - 4) '*' ++ key.toList.drop (key.length - 4))

/-- ClientSettingsDialog.set_key_input_value (lines 369-374): reads the
environment variable; when it is non-empty sets the input field to the
obscured form, else leaves the field's current text. -/
def set_key_input_value (env : String → Option String) (env_var current : String) : String :=
  let key := (env env_var).getD ""
  if key ≠ "" then obscure key else current

/-- ClientSettingsDialog.save_environment_variable (lines 401-403): writes
the value to the environment only when it is truthy (non-empty) and does
not start with the seven-asterisk sentinel. -/
def save_environment_variable (env : String → Option String) (var_name value : String) :
    String → Option String :=
  if value ≠ "" ∧ pyStartsWith value "*******" = false then
    fun n => if n = var_name then some value else env n
  else env

/-- Result of apply_settings: the dialog-plus-external state afterwards and
whether accept() was reached (false when a validation error was shown and
the method returned early). -/
structure ApplyResult where
  dialog : ClientSettingsDialog
  accepted : Bool

/-- ClientSettingsDialog.apply_settings (lines 376-399): reads the client
selection text, runs the two validation checks (each comparing that string
with an AIClientType enum member), then saves the three credential fields
to the environment, writes the settings object to the file and accepts. -/
def apply_settings (d : ClientSettingsDialog) : ApplyResult :=
  let ai_client_type := d.clientSelection
  if pyStrEqEnum ai_client_type AIClientType.OPEN_AI
      && (d.openai_api_key_input == "") then
    ⟨d, false⟩
  else if pyStrEqEnum ai_client_type AIClientType.AZURE_OPEN_AI
      && ((d.azure_api_key_input == "") || (d.azure_endpoint_input == "")) then
    ⟨d, false⟩
  else
    let settings : List (String × String) :=
      [("ai_client_type", ai_client_type),
       ("model", d.model_selection),
       ("api_version", d.azure_api_version_input)]
    let env1 := save_environment_variable d.env "OPENAI_API_KEY" d.openai_api_key_input
    let env2 := save_environment_variable env1 "AZURE_OPENAI_API_KEY" d.azure_api_key_input
    let env3 := save_environment_variable env2 "AZURE_OPENAI_ENDPOINT" d.azure_endpoint_input
    ⟨{ d with env := env3, fileContent := some settings }, true⟩

/-- listStartsWith always succeeds on an empty needle. -/
theorem listStartsWith_nil_r (l : List Char) : listStartsWith l [] = true := by
  cases l <;> rfl

/-- listHasSub always succeeds on an empty needle. -/
theorem listHasSub_nil_r (l : List Char) : listHasSub l [] = true := by
  cases l with
  | nil => rfl
  | cons a as => simp [listHasSub, listStartsWith_nil_r]

/-- The empty string is a substring of every string. -/
theorem pyIn_nil (s : String) : pyIn "" s = true := by
  simp [pyIn, listHasSub_nil_r]

/-- Claim C6: for every state of the dialog (hence after every sequence of
append operations) and every filter state, the rendered surface is a
sublist of the log buffer: relative insertion order of the included
messages is preserved, with no sorting, no deduplication and no
truncation. -/
theorem C6_render_is_sublist (d : DebugViewDialog) : List.Sublist (render d) d.logMessages := by
  by_cases h : d.filterList.any (fun it => it.checked) = true
  · simp [render, apply_filter, h]
  · simp [render, apply_filter, h]

/-- Claim C7: clear_log_window empties both the log buffer and the
rendered surface and leaves the filter entries, their check states, and
the quick-filter text unchanged, whatever the prior state was. -/
theorem C7_clear_frame (d : DebugViewDialog) :
    (clear_log_window d).logMessages = [] ∧
    (clear_log_window d).textEdit = [] ∧
    (clear_log_window d).filterList = d.filterList ∧
    (clear_log_window d).filterLineEdit = d.filterLineEdit := by
  simp [clear_log_window]

/-- The lower-casing of the empty string is the empty string. -/
theorem pyLower_empty : pyLower "" = "" := by decide

/-- The spec's scenario buffer. -/
def sampleBuffer : List String :=
  ["INFO start", "ERROR bad thing", "INFO done"]

/-- Concrete state: scenario buffer, one checked entry for the word error,
quick-filter text info. -/
def c2State : DebugViewDialog :=
  { logMessages := sampleBuffer, textEdit := [],
    filterList := [⟨"error", true⟩], filterLineEdit := "info" }

/-- Concrete state: scenario buffer, one unchecked entry, quick-filter
text info. -/
def c3State : DebugViewDialog :=
  { logMessages := sampleBuffer, textEdit := [],
    filterList := [⟨"error", false⟩], filterLineEdit := "info" }

/-- Claim C2: when at least one filter entry is checked, a message is
rendered iff it is in the buffer and its lower-cased text contains at
least one checked entry's lower-cased word as a substring (logical OR over
the checked words), and the quick-filter text has no effect on the
result. -/
theorem C2_enabled_entries_or (d : DebugViewDialog)
    (h : d.filterList.any (fun it => it.checked) = true) :
    (∀ m, m ∈ render d ↔
      m ∈ d.logMessages ∧
        ∃ e, e ∈ d.filterList ∧ e.checked = true ∧ pyIn (pyLower e.text) (pyLower m) = true) ∧
    (∀ q, render { d with filterLineEdit := q } = render d) := by
  have hr : render d = d.logMessages.filter (fun message =>
      ((d.filterList.filter (fun it => it.checked)).map (fun it => pyLower it.text)).any
        (fun filter_word => pyIn filter_word (pyLower message))) := by
    simp [render, apply_filter, h]
  constructor
  · intro m
    rw [hr]
    simp only [List.mem_filter, List.any_eq_true, List.mem_map, List.mem_filter]
    constructor
    · rintro ⟨hm, w, ⟨e, ⟨he, hc⟩, rfl⟩, hw⟩
      exact ⟨hm, e, he, hc, hw⟩
    · rintro ⟨hm, e, he, hc, hw⟩
      exact ⟨hm, pyLower e.text, ⟨e, ⟨he, hc⟩, rfl⟩, hw⟩
  · intro q
    simp [render, apply_filter, h]

/-- Witness for C2: the scenario state with one checked entry, showing the
characterization at one message and the quick-filter independence. -/
theorem C2_witness :
    (("ERROR bad thing" ∈ render c2State ↔
      "ERROR bad thing" ∈ c2State.logMessages ∧
        ∃ e, e ∈ c2State.filterList ∧ e.checked = true ∧
          pyIn (pyLower e.text) (pyLower "ERROR bad thing") = true) ∧
    render { c2State with filterLineEdit := "xyz" } = render c2State) := by
  have h := C2_enabled_entries_or c2State (by decide)
  exact ⟨h.1 "ERROR bad thing", h.2 "xyz"⟩

/-- Claim C3: when no filter entry is checked, a message is rendered iff it
is in the buffer and the quick-filter text is empty or occurs
case-insensitively in it; with empty quick-filter text the whole buffer is
rendered unchanged. -/
theorem C3_quick_filter_fallback (d : DebugViewDialog)
    (h : d.filterList.any (fun it => it.checked) = false) :
    (∀ m, m ∈ render d ↔
      m ∈ d.logMessages ∧
        (d.filterLineEdit = "" ∨ pyIn (pyLower d.filterLineEdit) (pyLower m) = true)) ∧
    (d.filterLineEdit = "" → render d = d.logMessages) := by
  have hr : render d = d.logMessages.filter (fun message =>
      pyIn (pyLower d.filterLineEdit) (pyLower message)) := by
    simp [render, apply_filter, h]
  constructor
  · intro m
    rw [hr]
    simp only [List.mem_filter]
    constructor
    · rintro ⟨hm, hp⟩
      exact ⟨hm, Or.inr hp⟩
    · rintro ⟨hm, hq | hp⟩
      · refine ⟨hm, ?_⟩
        rw [hq, pyLower_empty]
        exact pyIn_nil _
      · exact ⟨hm, hp⟩
  · intro hq
    rw [hr]
    exact List.filter_eq_self.mpr
      (fun m _ => by rw [hq, pyLower_empty]; exact pyIn_nil _)

/-- Witness for C3: the scenario state with no checked entry and
quick-filter text info, and the same state with empty quick-filter text. -/
theorem C3_witness :
    (("INFO start" ∈ render c3State ↔
      "INFO start" ∈ c3State.logMessages ∧
        (c3State.filterLineEdit = "" ∨
          pyIn (pyLower c3State.filterLineEdit) (pyLower "INFO start") = true)) ∧
    render { c3State with filterLineEdit := "" } = c3State.logMessages) := by
  refine ⟨(C3_quick_filter_fallback c3State (by decide)).1 "INFO start", ?_⟩
  exact (C3_quick_filter_fallback { c3State with filterLineEdit := "" } (by decide)).2 rfl

/-- apply_filter rewrites only the rendered surface: the filter list is
untouched. -/
theorem apply_filter_filterList (d : DebugViewDialog) :
    (apply_filter d).filterList = d.filterList := by
  by_cases h : d.filterList.any (fun it => it.checked) = true <;> simp [apply_filter, h]

/-- Concrete state whose quick-filter line edit holds a single space, a
whitespace-only word. -/
def c5State : DebugViewDialog :=
  { logMessages := [], textEdit := [], filterList := [], filterLineEdit := " " }

/-- Counterexample to C5: with the whitespace-only word " " in the line
edit, add_filter_word is not a no-op: it appends a filter entry.  Only the
empty string is rejected (Python truthiness at line 140). -/
theorem C5_counterexample :
    (add_filter_word c5State).filterList ≠ c5State.filterList := by
  decide

/-- Claim C5 (amended): add_filter_word is a no-op only for the empty
input word; every non-empty word — including whitespace-only ones — is
appended as one new unchecked entry, without deduplication, so adding the
same word twice yields two independent entries; an unchecked duplicate
alongside a checked entry of the same word leaves that entry's effect on
the rendering unchanged. -/
theorem C5_amended (d : DebugViewDialog) (w : String) :
    (d.filterLineEdit = "" → add_filter_word d = d) ∧
    (d.filterLineEdit ≠ "" →
      (add_filter_word d).filterList = d.filterList ++ [⟨d.filterLineEdit, false⟩]) ∧
    (∀ L, render { d with filterList := L ++ [⟨w, true⟩, ⟨w, false⟩] } =
      render { d with filterList := L ++ [⟨w, true⟩] }) := by
  refine ⟨fun hq => by simp [add_filter_word, hq], fun hq => ?_, fun L => ?_⟩
  · simp only [add_filter_word, if_neg hq, apply_filter_filterList]
  · simp [render, apply_filter, List.any_append, List.filter_append]

/-- Witness for C5 (amended): applied at the whitespace-word state, the
new entry is appended, and at a two-duplicate list the unchecked duplicate
is inert. -/
theorem C5_amended_witness :
    ((add_filter_word c5State).filterList = c5State.filterList ++ [⟨" ", false⟩]) ∧
    (render { c5State with filterList := [⟨"error", true⟩, ⟨"error", false⟩] } =
      render { c5State with filterList := [⟨"error", true⟩] }) := by
  have h := C5_amended c5State "error"
  exact ⟨h.2.1 (by decide), h.2.2 []⟩

/-- Writing an empty value to the environment is skipped. -/
theorem save_env_empty (env : String → Option String) (var_name : String) :
    save_environment_variable env var_name "" = env := by
  unfold save_environment_variable
  rw [if_neg]
  intro hc
  exact hc.1 rfl

/-- A write to one environment variable leaves every other name
unchanged. -/
theorem save_env_other (env : String → Option String) (var_name value x : String)
    (h : x ≠ var_name) :
    save_environment_variable env var_name value x = env x := by
  unfold save_environment_variable
  split
  · simp [h]
  · rfl

/-- At any name, a save either leaves the environment unchanged or stores
the written (non-empty) value. -/
theorem save_env_cases (env : String → Option String) (var_name value x : String) :
    save_environment_variable env var_name value x = env x ∨
      (save_environment_variable env var_name value x = some value ∧ value ≠ "") := by
  unfold save_environment_variable
  split
  · rename_i hc
    by_cases hx : x = var_name
    · exact Or.inr ⟨by simp [hx], hc.1⟩
    · exact Or.inl (by simp [hx])
  · exact Or.inl rfl

/-- Claim C9: loading with no settings file present leaves the (empty)
mapping empty, without error, and every lookup with a default then returns
the default. -/
theorem C9_load_missing_file (d : ClientSettingsDialog)
    (hf : d.fileContent = none) (hs : d.settings = []) :
    (load_settings d).settings = [] ∧
    (∀ k dflt, dictGet (load_settings d).settings k dflt = dflt) := by
  have hl : load_settings d = d := by
    unfold load_settings
    rw [hf]
  rw [hl, hs]
  exact ⟨rfl, fun k dflt => rfl⟩

/-- A fresh dialog as init_settings builds it before any file exists:
empty settings, no file, with arbitrary concrete widget contents. -/
def freshDialog : ClientSettingsDialog :=
  { clientSelection := "OPEN_AI", openai_api_key_input := "",
    azure_api_key_input := "", azure_endpoint_input := "",
    azure_api_version_input := "", model_selection := "",
    settings := [], fileContent := none, env := fun _ => none }

/-- Witness for C9: the fresh dialog with no file; the lookup of model
with default empty string returns the empty string. -/
theorem C9_witness :
    (load_settings freshDialog).settings = [] ∧
    dictGet (load_settings freshDialog).settings "model" "" = "" := by
  have h := C9_load_missing_file freshDialog rfl rfl
  exact ⟨h.1, h.2 "model" ""⟩

/-- Claim C10: applying with an empty credential field leaves that field's
environment variable unchanged, whatever the prior environment was; and no
environment variable is ever cleared or emptied by an apply: each name
either keeps its prior value or receives a non-empty written value. -/
theorem C10_empty_value_no_write (d : ClientSettingsDialog) :
    (∀ (env0 : String → Option String) (name : String),
      save_environment_variable env0 name "" = env0) ∧
    (d.openai_api_key_input = "" →
      (apply_settings d).dialog.env "OPENAI_API_KEY" = d.env "OPENAI_API_KEY") ∧
    (d.azure_api_key_input = "" →
      (apply_settings d).dialog.env "AZURE_OPENAI_API_KEY" = d.env "AZURE_OPENAI_API_KEY") ∧
    (d.azure_endpoint_input = "" →
      (apply_settings d).dialog.env "AZURE_OPENAI_ENDPOINT" = d.env "AZURE_OPENAI_ENDPOINT") ∧
    (∀ x, (apply_settings d).dialog.env x = d.env x ∨
      ∃ v, (apply_settings d).dialog.env x = some v ∧ v ≠ "") := by
  have happ : (apply_settings d).dialog.env =
      save_environment_variable
        (save_environment_variable
          (save_environment_variable d.env "OPENAI_API_KEY" d.openai_api_key_input)
          "AZURE_OPENAI_API_KEY" d.azure_api_key_input)
        "AZURE_OPENAI_ENDPOINT" d.azure_endpoint_input := by
    simp [apply_settings, pyStrEqEnum]
  refine ⟨fun env0 name => save_env_empty env0 name, fun h1 => ?_, fun h2 => ?_,
    fun h3 => ?_, fun x => ?_⟩
  · rw [happ, save_env_other _ _ _ _ (by decide), save_env_other _ _ _ _ (by decide),
      h1, save_env_empty]
  · rw [happ, save_env_other _ _ _ _ (by decide), h2, save_env_empty,
      save_env_other _ _ _ _ (by decide)]
  · rw [happ, h3, save_env_empty, save_env_other _ _ _ _ (by decide),
      save_env_other _ _ _ _ (by decide)]
  · rw [happ]
    rcases save_env_cases _ "AZURE_OPENAI_ENDPOINT" d.azure_endpoint_input x with h3 | ⟨h3, hv3⟩
    · rw [h3]
      rcases save_env_cases _ "AZURE_OPENAI_API_KEY" d.azure_api_key_input x with h2 | ⟨h2, hv2⟩
      · rw [h2]
        rcases save_env_cases d.env "OPENAI_API_KEY" d.openai_api_key_input x with h1 | ⟨h1, hv1⟩
        · exact Or.inl h1
        · exact Or.inr ⟨_, h1, hv1⟩
      · exact Or.inr ⟨_, h2, hv2⟩
    · exact Or.inr ⟨_, h3, hv3⟩

/-- Witness for C10: applying the fresh dialog (all credential fields
empty) over an environment holding a stored key changes none of the three
variables. -/
theorem C10_witness :
    (apply_settings freshDialog).dialog.env "OPENAI_API_KEY" =
      freshDialog.env "OPENAI_API_KEY" ∧
    (apply_settings freshDialog).dialog.env "AZURE_OPENAI_API_KEY" =
      freshDialog.env "AZURE_OPENAI_API_KEY" ∧
    (apply_settings freshDialog).dialog.env "AZURE_OPENAI_ENDPOINT" =
      freshDialog.env "AZURE_OPENAI_ENDPOINT" := by
  have h := C10_empty_value_no_write freshDialog
  exact ⟨h.2.1 rfl, h.2.2.1 rfl, h.2.2.2.1 rfl⟩

/-- Claim C8: applying with client tag OPEN_AI, model gpt-4 and empty API
version succeeds and overwrites the settings file so that a fresh
instance's load yields exactly those three fields. -/
theorem C8_round_trip (d : ClientSettingsDialog)
    (h1 : d.clientSelection = "OPEN_AI") (h2 : d.model_selection = "gpt-4")
    (h3 : d.azure_api_version_input = "") :
    (apply_settings d).accepted = true ∧
    (∀ fresh : ClientSettingsDialog, fresh.settings = [] →
      fresh.fileContent = (apply_settings d).dialog.fileContent →
      (load_settings fresh).settings =
        [("ai_client_type", "OPEN_AI"), ("model", "gpt-4"), ("api_version", "")]) := by
  have hfile : (apply_settings d).dialog.fileContent =
      some [("ai_client_type", "OPEN_AI"), ("model", "gpt-4"), ("api_version", "")] := by
    simp [apply_settings, pyStrEqEnum, h1, h2, h3]
  refine ⟨by simp [apply_settings, pyStrEqEnum], fun fresh hs hf => ?_⟩
  rw [hfile] at hf
  unfold load_settings
  rw [hf, hs]
  rfl

/-- Concrete dialog about to apply OPEN_AI / gpt-4 / empty API version. -/
def c8Dialog : ClientSettingsDialog :=
  { clientSelection := "OPEN_AI", openai_api_key_input := "sk-test-key-123",
    azure_api_key_input := "", azure_endpoint_input := "",
    azure_api_version_input := "", model_selection := "gpt-4",
    settings := [], fileContent := none, env := fun _ => none }

/-- Witness for C8: the concrete apply succeeds and a fresh instance whose
file is the one just written loads exactly the three fields. -/
theorem C8_witness :
    (apply_settings c8Dialog).accepted = true ∧
    (load_settings
        { freshDialog with fileContent := (apply_settings c8Dialog).dialog.fileContent }).settings =
      [("ai_client_type", "OPEN_AI"), ("model", "gpt-4"), ("api_version", "")] := by
  have h := C8_round_trip c8Dialog rfl rfl rfl
  exact ⟨h.1, h.2 _ rfl rfl⟩

/-- Concrete dialog exercising the spec's failure scenario for C1: client
tag AZURE_OPEN_AI with an empty Azure key field (and a non-empty
endpoint). -/
def c1Dialog : ClientSettingsDialog :=
  { clientSelection := "AZURE_OPEN_AI", openai_api_key_input := "",
    azure_api_key_input := "", azure_endpoint_input := "https://example.azure.com",
    azure_api_version_input := "2023-09-01-preview", model_selection := "gpt-4",
    settings := [], fileContent := none, env := fun _ => none }

/-- Claim C1 (code bug): apply_settings compares the combo box's
currentText() string with AIClientType enum members, which is always
False, so both validation branches are dead: with client tag
AZURE_OPEN_AI and an empty Azure key field the method does not return a
validation error — it accepts and writes the settings file. -/
theorem C1_validation_dead :
    (apply_settings c1Dialog).accepted = true ∧
    (apply_settings c1Dialog).dialog.fileContent =
      some [("ai_client_type", "AZURE_OPEN_AI"), ("model", "gpt-4"),
        ("api_version", "2023-09-01-preview")] ∧
    c1Dialog.fileContent = none := by
  exact ⟨rfl, rfl, rfl⟩

/-- A run of at least k asterisks starts with k asterisks. -/
theorem listStartsWith_replicate (k : Nat) :
    ∀ (n : Nat) (rest : List Char), k ≤ n →
      listStartsWith (List.replicate n '*' ++ rest) (List.replicate k '*') = true := by
  induction k with
  | zero => intro n rest _; exact listStartsWith_nil_r _
  | succ k ih =>
    intro n rest hk
    cases n with
    | zero => omega
    | succ n =>
      simp only [List.replicate_succ, List.cons_append, listStartsWith, List.append_eq]
      rw [ih n rest (by omega)]
      simp

/-- The seven-asterisk sentinel literal, as a character list. -/
theorem sentinel_toList : "*******".toList = List.replicate 7 '*' := by decide

/-- Claim C4 (amended): for every stored secret of length at least 11 —
so that the masked display form contains at least seven asterisks — the
masked form is detected by the sentinel check and is never written back to
the environment. -/
theorem C4_amended (key : String) (h : 11 ≤ key.length)
    (env : String → Option String) (var_name : String) :
    save_environment_variable env var_name (obscure key) = env := by
  have hpre : pyStartsWith (obscure key) "*******" = true := by
    unfold pyStartsWith obscure
    rw [sentinel_toList]
    exact listStartsWith_replicate 7 (key.length - 4) (key.toList.drop (key.length - 4))
      (by omega)
  unfold save_environment_variable
  rw [if_neg]
  intro hc
  rw [hpre] at hc
  exact absurd hc.2 (by simp)

/-- Witness for C4 (amended): an 11-character secret's masked form is
skipped on save. -/
theorem C4_amended_witness :
    save_environment_variable (fun _ => none) "OPENAI_API_KEY" (obscure "abcdefghijk") =
      (fun _ => none) :=
  C4_amended "abcdefghijk" (by decide) (fun _ => none) "OPENAI_API_KEY"

/-- The environment for the C4 counterexample: a stored 10-character
OpenAI key. -/
def c4Env : String → Option String :=
  fun n => if n = "OPENAI_API_KEY" then some "abcdefghij" else none

/-- The dialog at the C4 counterexample: the OpenAI key field shows the
masked form of the stored 10-character secret, exactly as
set_key_input_value displays it at dialog open. -/
def c4Dialog : ClientSettingsDialog :=
  { clientSelection := "OPEN_AI",
    openai_api_key_input := set_key_input_value c4Env "OPENAI_API_KEY" "",
    azure_api_key_input := "", azure_endpoint_input := "",
    azure_api_version_input := "", model_selection := "gpt-4",
    settings := [], fileContent := none, env := c4Env }

/-- Counterexample to C4: the stored secret abcdefghij has 10 characters,
so its masked form carries only six asterisks, escapes the seven-asterisk
sentinel, and apply_settings writes the masked text back over the stored
secret. -/
theorem C4_counterexample :
    c4Dialog.openai_api_key_input = obscure "abcdefghij" ∧
    c4Dialog.env "OPENAI_API_KEY" = some "abcdefghij" ∧
    (apply_settings c4Dialog).dialog.env "OPENAI_API_KEY" = some "******ghij" := by
  refine ⟨rfl, rfl, ?_⟩
  decide

end SettingsDialogs
